import Mathlib

/-!
Verification of the Khronos virtual-clock program: a shallow embedding of
its NTP timestamp codec (`src/ntp.rs`), program clock (`src/program_clock.rs`),
adaptive Kalman filter (`src/kalman_filter.rs`) and orchestrator sample
handling (`src/app.rs`), with theorems checking the specification's claims.

Machine integers are modelled as `Nat`/`Int` with explicit bounds where the
code checks them; `f64` arithmetic is modelled as exact rational arithmetic
(`ℚ`), with `f64::exp` abstracted as a function parameter; timestamps and
durations are integer nanosecond counts.
-/

namespace Khronos

/-- `NTP_UNIX_EPOCH_DIFF` from `src/ntp.rs`: seconds between the NTP era
(1900) and the Unix epoch (1970). -/
def NTP_UNIX_EPOCH_DIFF : Nat := 2208988800

/-- Error cases arising in the NTP timestamp codec (`io::Error` values in
`src/ntp.rs`, distinguished by their construction site). -/
inductive NtpError where
  /-- "NTP seconds overflow": `checked_add`/`u32::try_from` failure in
  `from_chrono_utc`. -/
  | secondsOverflow
  /-- "NTP fraction overflow": `u32::try_from` failure on a fraction field. -/
  | fractionOverflow
  /-- `ErrorKind::InvalidData`, "NTP time is earlier than Unix epoch". -/
  | timestampDecode
  deriving DecidableEq

/-- `NtpTimestamp` from `src/ntp.rs`: an RFC-5905 64-bit timestamp, two
unsigned 32-bit fields. Modelled with `Nat` fields; the `u32` range is a
hypothesis where a theorem needs it. -/
structure NtpTimestamp where
  seconds : Nat
  fraction : Nat
  deriving DecidableEq

/-- `NtpTimestamp::from_chrono_utc` (`src/ntp.rs` lines 39-55), applied to a
time at or after the Unix epoch given as `unixSecs` whole seconds plus
`subsecNanos` nanoseconds (`Duration::as_secs` / `Duration::subsec_nanos`).
The `u64` `checked_add` and the two `u32::try_from` checks are modelled as
explicit range tests. -/
def NtpTimestamp.from_chrono_utc (unixSecs subsecNanos : Nat) :
    Except NtpError NtpTimestamp :=
  if unixSecs + NTP_UNIX_EPOCH_DIFF ≥ 2 ^ 64 then .error .secondsOverflow
  else if unixSecs + NTP_UNIX_EPOCH_DIFF ≥ 2 ^ 32 then .error .secondsOverflow
  else
    let fraction := subsecNanos * 4294967296 / 1000000000
    if fraction ≥ 2 ^ 32 then .error .fractionOverflow
    else .ok ⟨unixSecs + NTP_UNIX_EPOCH_DIFF, fraction⟩

/-- `NtpTimestamp::to_system_time` (`src/ntp.rs` lines 57-70); the result
`SystemTime` is represented as (whole Unix seconds, subsecond nanoseconds). -/
def NtpTimestamp.to_system_time (ts : NtpTimestamp) :
    Except NtpError (Nat × Nat) :=
  if ts.seconds < NTP_UNIX_EPOCH_DIFF then .error .timestampDecode
  else
    let nanos := ts.fraction * 1000000000 / 4294967296
    if nanos ≥ 2 ^ 32 then .error .fractionOverflow
    else .ok (ts.seconds - NTP_UNIX_EPOCH_DIFF, nanos)

/-- The offset/delay computation of `query_ntp` (`src/ntp.rs` lines 119-132):
`t1` is the program-clock reading at send, `rtt` the monotonic round-trip
`m_recv - m_send`, `t2`/`t3` the decoded server timestamps. All values are
nanosecond counts; `t4 := t1 + rtt`. chrono `TimeDelta` stores a duration
as `secs` (any sign) plus non-negative `nanos`, and its division by a
positive divisor (truncated `secs`, carry `· 10⁹ / rhs`, truncated
`nanos`) floor-divides the total nanosecond value, so `/ 2` is `Int.fdiv`.
Returns `(offset, delay)`. -/
def queryNtpOffsetDelay (t1 rtt t2 t3 : Int) : Int × Int :=
  let t4 := t1 + rtt
  (Int.fdiv ((t2 - t1) + (t3 - t4)) 2, (t4 - t1) - (t3 - t2))

/-- `ProgramClock` from `src/program_clock.rs`: a UTC anchor plus the
monotonic instant at which it was taken, both as integer nanosecond counts. -/
structure ProgramClock where
  current_utc : Int
  last_updated_at : Int
  deriving DecidableEq

/-- `ProgramClock::new` (`src/program_clock.rs` lines 9-14): takes no
configuration and anchors at the hardcoded `"2000-01-01T00:00:00Z"`
(Unix second 946684800); `m_now` is `Instant::now()`. -/
def ProgramClock.new (m_now : Int) : ProgramClock :=
  { current_utc := 946684800 * 1000000000, last_updated_at := m_now }

/-- `ProgramClock::now` (`src/program_clock.rs` lines 16-19) read at
monotonic instant `m_now`: anchor plus elapsed monotonic time. -/
def ProgramClock.now (c : ProgramClock) (m_now : Int) : Int :=
  c.current_utc + (m_now - c.last_updated_at)

/-- `ProgramClock::apply_offset` (`src/program_clock.rs` lines 21-25)
executed at monotonic instant `m_now`. -/
def ProgramClock.apply_offset (c : ProgramClock) (offset m_now : Int) :
    ProgramClock :=
  let current_time := c.now m_now
  { current_utc := current_time + offset, last_updated_at := m_now }

/-- The sleep duration chosen each iteration by `start_sync_thread`
(`src/ntp.rs` line 145): `rng.random_range(0..=2)` seconds, i.e. the image
of a uniform draw over `{0, 1, 2}`; the function receives no configuration. -/
def startSyncThreadSleepSecs (draw : Fin 3) : Nat := draw.val

/-- `f64::mul_add(a, b, c) = a * b + c`; exact in the rational model. -/
def mulAdd (a b c : ℚ) : ℚ := a * b + c

/-- `KalmanFilter` from `src/kalman_filter.rs`: the two-entry `x_hat` vector
and the 2×2 `p_matrix` are flattened into named rational fields; the
monotonic `last_timestamp` is kept outside the model (elapsed time enters
`update` as the parameter `dt`). -/
structure KalmanFilter where
  x_hat0 : ℚ
  x_hat1 : ℚ
  p00 : ℚ
  p01 : ℚ
  p10 : ℚ
  p11 : ℚ
  process_noise_q : ℚ
  nis_ema : ℚ
  adaptation_rate_eta : ℚ
  nis_ema_alpha : ℚ
  deriving DecidableEq

/-- `KalmanFilter::new` (`src/kalman_filter.rs` lines 12-28). -/
def KalmanFilter.new (initial_offset initial_uncertainty
    initial_process_noise_q adaptation_rate_eta nis_ema_alpha : ℚ) :
    KalmanFilter :=
  { x_hat0 := initial_offset, x_hat1 := 0,
    p00 := initial_uncertainty, p01 := 0, p10 := 0, p11 := initial_uncertainty,
    process_noise_q := initial_process_noise_q,
    nis_ema := 1,
    adaptation_rate_eta := adaptation_rate_eta,
    nis_ema_alpha := nis_ema_alpha }

/-- `KalmanFilter::predict` (`src/kalman_filter.rs` lines 30-65): returns
`(x_hat_predicted, p_predicted)` as `((xp0, xp1), (pp00, pp01, pp10, pp11))`. -/
def KalmanFilter.predict (kf : KalmanFilter) (dt : ℚ) :
    (ℚ × ℚ) × (ℚ × ℚ × ℚ × ℚ) :=
  let f00 : ℚ := 1
  let f01 := dt
  let f10 : ℚ := 0
  let f11 : ℚ := 1
  let q := kf.process_noise_q
  let dt2 := dt * dt
  let dt3 := dt2 * dt
  let q00 := dt3 / 3 * q
  let q01 := dt2 / 2 * q
  let q10 := dt2 / 2 * q
  let q11 := dt * q
  let xp0 := mulAdd kf.x_hat0 f00 (kf.x_hat1 * f01)
  let xp1 := mulAdd kf.x_hat0 f10 (kf.x_hat1 * f11)
  let fp00 := mulAdd f00 kf.p00 (f01 * kf.p10)
  let fp01 := mulAdd f00 kf.p01 (f01 * kf.p11)
  let fp10 := mulAdd f10 kf.p00 (f11 * kf.p10)
  let fp11 := mulAdd f10 kf.p01 (f11 * kf.p11)
  let fpft00 := mulAdd fp00 f00 (fp01 * f01)
  let fpft01 := mulAdd fp00 f10 (fp01 * f11)
  let fpft10 := mulAdd fp10 f00 (fp11 * f01)
  let fpft11 := mulAdd fp10 f10 (fp11 * f11)
  ((xp0, xp1), (fpft00 + q00, fpft01 + q01, fpft10 + q10, fpft11 + q11))

/-- `KalmanFilter::correct` (`src/kalman_filter.rs` lines 67-109). The
predicted state/covariance arrays are passed as scalars; `expf` abstracts
`f64::exp` (the only transcendental operation). -/
def KalmanFilter.correct (kf : KalmanFilter) (expf : ℚ → ℚ)
    (measurement measurement_noise_r xp0 xp1 pp00 pp01 pp10 pp11 : ℚ) :
    KalmanFilter :=
  let h0 : ℚ := 1
  let h1 : ℚ := 0
  let y := measurement - mulAdd h0 xp0 (h1 * xp1)
  let hp0 := mulAdd h0 pp00 (h1 * pp10)
  let hp1 := mulAdd h0 pp01 (h1 * pp11)
  let hpht := mulAdd hp0 h0 (hp1 * h1)
  let s := hpht + measurement_noise_r
  let pht0 := mulAdd pp00 h0 (pp01 * h1)
  let pht1 := mulAdd pp10 h0 (pp11 * h1)
  let k0 := pht0 / s
  let k1 := pht1 / s
  let x0 := mulAdd k0 y xp0
  let x1 := mulAdd k1 y xp1
  let kh00 := k0 * h0
  let kh01 := k0 * h1
  let kh10 := k1 * h0
  let kh11 := k1 * h1
  let i00 := 1 - kh00
  let i01 := -kh01
  let i10 := -kh10
  let i11 := 1 - kh11
  let np00 := mulAdd i00 pp00 (i01 * pp10)
  let np01 := mulAdd i00 pp01 (i01 * pp11)
  let np10 := mulAdd i10 pp00 (i11 * pp10)
  let np11 := mulAdd i10 pp01 (i11 * pp11)
  let nis := y * y / s
  let new_nis_ema := mulAdd (1 - kf.nis_ema_alpha) kf.nis_ema (kf.nis_ema_alpha * nis)
  let factor := expf (kf.adaptation_rate_eta * (new_nis_ema - 1))
  { kf with
    x_hat0 := x0, x_hat1 := x1,
    p00 := np00, p01 := np01, p10 := np10, p11 := np11,
    nis_ema := new_nis_ema,
    process_noise_q := kf.process_noise_q * factor }

/-- `KalmanFilter::update` (`src/kalman_filter.rs` lines 111-122): the
elapsed monotonic seconds `dt` is a parameter; returns the new filter and
the returned `x_hat[0]`. -/
def KalmanFilter.update (kf : KalmanFilter) (expf : ℚ → ℚ)
    (dt measurement measurement_noise_r : ℚ) : KalmanFilter × ℚ :=
  let pred := kf.predict dt
  let kf' := kf.correct expf measurement measurement_noise_r
    pred.1.1 pred.1.2 pred.2.1 pred.2.2.1 pred.2.2.2.1 pred.2.2.2.2
  (kf', kf'.x_hat0)

/-- Errors arising while `handle_sync_message` (`src/app.rs` lines 84-177)
processes a `Success` sample, distinguished by construction site. -/
inductive AppError where
  /-- `measured_offset.num_microseconds()` returned `None`. -/
  | offsetMicrosOverflow
  /-- `micros_to_secs` rejected `measured_offset` (beyond `2^53` µs or a
  failed `u32` narrowing). -/
  | offsetTooLarge
  /-- `measured_delay.num_microseconds()` returned `None`. -/
  | delayMicrosOverflow
  /-- `micros_to_secs` rejected `measured_delay`. -/
  | delayTooLarge
  /-- The smoothed offset could not be converted to a `chrono::Duration`. -/
  | smoothedConvert
  deriving DecidableEq

/-- `MAX_SAFE_INTEGER_IN_F64` (`src/app.rs` line 101): `2^53`. -/
def MAX_SAFE_INTEGER_IN_F64 : Nat := 9007199254740992

/-- `micros_to_secs` (`src/app.rs` lines 100-129): converts a microsecond
count to rational seconds via the exact high/low `u32` decomposition, or
fails with the caller-supplied error when outside `f64`-exact range. -/
def micros_to_secs (e : AppError) (micros : Int) : Except AppError ℚ :=
  let micros_abs := micros.natAbs
  if micros_abs > MAX_SAFE_INTEGER_IN_F64 then .error e
  else if micros_abs / 4294967296 ≥ 2 ^ 32 then .error e
  else if micros_abs % 4294967296 ≥ 2 ^ 32 then .error e
  else
    let high := micros_abs / 4294967296
    let low := micros_abs % 4294967296
    let micros_f64 : ℚ := (high : ℚ) * 4294967296 + (low : ℚ)
    let micros_secs := micros_f64 / 1000000
    .ok (if micros < 0 then -micros_secs else micros_secs)

/-- `i64::MAX`. -/
def I64_MAX : Int := 9223372036854775807

/-- `i64::MIN`. -/
def I64_MIN : Int := -9223372036854775808

/-- `chrono::Duration::num_microseconds` on a duration of `nanos`
nanoseconds: the whole microsecond count truncated toward zero, or `none`
when it does not fit an `i64`. -/
def num_microseconds (nanos : Int) : Option Int :=
  let micros := Int.tdiv nanos 1000
  if micros < I64_MIN ∨ I64_MAX < micros then none else some micros

/-- `chrono::Duration::MAX` in nanoseconds: `i64::MAX` milliseconds. -/
def CHRONO_MAX_NANOS : Int := 9223372036854775807 * 1000000

/-- The smoothed-offset conversion of `handle_sync_message` (`src/app.rs`
lines 147-158): `Duration::from_secs_f64` on the absolute value (rounding
to whole nanoseconds), `chrono::Duration::from_std` (failing beyond
`chrono::Duration::MAX`), and re-negation for negative inputs. -/
def secs_to_duration (x : ℚ) : Except AppError Int :=
  if x < 0 then
    let ns := ⌊-x * 1000000000 + 1 / 2⌋
    if CHRONO_MAX_NANOS < ns then .error .smoothedConvert else .ok (-ns)
  else
    let ns := ⌊x * 1000000000 + 1 / 2⌋
    if CHRONO_MAX_NANOS < ns then .error .smoothedConvert else .ok ns

/-- The `Success(measured_offset, measured_delay)` arm of
`handle_sync_message` (`src/app.rs` lines 99-174), with display output
elided. Inputs `measured_offset`/`measured_delay` are the sample's
durations in nanoseconds; `dt` is the filter's elapsed time and `m_now`
the monotonic instant of the clock update. Returns the result together
with the filter and clock states as they stand when the function
returns. -/
def handleSuccess (expf : ℚ → ℚ) (kf : KalmanFilter) (clock : ProgramClock)
    (dt : ℚ) (m_now : Int) (delay_to_r_factor : ℚ)
    (measured_offset measured_delay : Int) :
    Except AppError Unit × KalmanFilter × ProgramClock :=
  match num_microseconds measured_offset with
  | none => (.error .offsetMicrosOverflow, kf, clock)
  | some offMicros =>
    match micros_to_secs .offsetTooLarge offMicros with
    | .error e => (.error e, kf, clock)
    | .ok measured_offset_secs =>
      match num_microseconds measured_delay with
      | none => (.error .delayMicrosOverflow, kf, clock)
      | some delayMicros =>
        match micros_to_secs .delayTooLarge delayMicros with
        | .error e => (.error e, kf, clock)
        | .ok delay_secs =>
          let measurement_noise_r := delay_secs * delay_to_r_factor
          let upd := kf.update expf dt measured_offset_secs measurement_noise_r
          match secs_to_duration upd.2 with
          | .error e => (.error e, upd.1, clock)
          | .ok smoothed => (.ok (), upd.1, clock.apply_offset smoothed m_now)

/-- `secs_to_duration` can only fail with the smoothed-conversion error. -/
lemma secs_to_duration_error (x : ℚ) (e : AppError)
    (h : secs_to_duration x = .error e) : e = .smoothedConvert := by
  unfold secs_to_duration at h
  split at h
  all_goals simp only [] at h
  all_goals split at h <;> simp_all

/-- Claim C1: for every successful NTP query with client send time `T1`,
round trip `rtt = m_recv − m_send`, server timestamps `T2`, `T3`, and
`T4 = T1 + rtt`, `query_ntp` returns `offset = ((T2−T1) + (T3−T4))/2` and
`delay = (T4−T1) − (T3−T2)`, the division being chrono's floor division of
the nanosecond total; in particular for
`(T1, T2, T3, T4) = (1000, 1005, 1006, 1002)` seconds the offset is 4.5
seconds and the delay is 1 second (nanosecond counts below). The last
conjunct pins the floor semantics at a negative odd-nanosecond sum:
`(T2−T1) + (T3−T4) = −1` ns gives offset `−1` ns, not `0`. -/
theorem c1_query_ntp_offset_delay :
    (∀ t1 rtt t2 t3 : Int,
      queryNtpOffsetDelay t1 rtt t2 t3 =
        (Int.fdiv ((t2 - t1) + (t3 - (t1 + rtt))) 2,
          ((t1 + rtt) - t1) - (t3 - t2))) ∧
    queryNtpOffsetDelay 1000000000000 2000000000 1005000000000 1006000000000 =
      (4500000000, 1000000000) ∧
    queryNtpOffsetDelay 0 1 0 0 = (-1, 1) := by
  exact ⟨fun t1 rtt t2 t3 => rfl, by decide, by decide⟩

/-- Claim C2: after `apply_offset(δ)` at monotonic time `m`, the next
`now()` at monotonic time `m + ε` equals the previously returned
`now(m) + δ + ε`: `apply_offset` re-anchors the clock to `now() + δ` at the
current monotonic instant. Exact in the integer-nanosecond model. -/
theorem c2_apply_offset_reanchors (c : ProgramClock) (offset m eps : Int) :
    (c.apply_offset offset m).now (m + eps) = c.now m + offset + eps := by
  simp only [ProgramClock.apply_offset, ProgramClock.now]
  ring

/-- Claim C4 (code evaluation): `ProgramClock::new` takes no configured
`initial_utc` at all — for every monotonic creation instant the anchor is
the hardcoded 2000-01-01T00:00:00Z (Unix second 946684800), so the first
`now()` reading reflects that constant rather than the configured value
(e.g. a configured 2020-01-01T00:00:00Z, Unix second 1577836800). -/
theorem c4_new_hardcoded_anchor :
    (∀ m_now : Int, (ProgramClock.new m_now).current_utc =
      946684800 * 1000000000) ∧
    (ProgramClock.new 0).now 0 = 946684800 * 1000000000 ∧
    (946684800 : Int) * 1000000000 ≠ 1577836800 * 1000000000 := by
  exact ⟨fun _ => rfl, by decide, by decide⟩

/-- Claim C5: `to_system_time` fails exactly when the seconds field is
below `2_208_988_800`, with the `InvalidData` decode error; otherwise it
returns `Ok` with Unix seconds `seconds − 2_208_988_800`. -/
theorem c5_to_system_time_error_iff (ts : NtpTimestamp)
    (hf : ts.fraction < 2 ^ 32) :
    (ts.seconds < 2208988800 →
      ts.to_system_time = .error .timestampDecode) ∧
    (2208988800 ≤ ts.seconds →
      ts.to_system_time =
        .ok (ts.seconds - 2208988800, ts.fraction * 1000000000 / 4294967296)) := by
  constructor
  · intro hlt
    unfold NtpTimestamp.to_system_time NTP_UNIX_EPOCH_DIFF
    rw [if_pos hlt]
  · intro hge
    unfold NtpTimestamp.to_system_time NTP_UNIX_EPOCH_DIFF
    rw [if_neg (by omega)]
    simp only []
    rw [if_neg (by omega)]

/-- Witness for C5 at the spec's S1 scenario: seconds `3_869_835_264`,
fraction `2^31` decode to Unix seconds `1_660_846_464` and `500_000_000`
nanoseconds. -/
theorem c5_witness :
    (2147483648 < 2 ^ 32) ∧
    (2208988800 ≤ 3869835264 →
      (NtpTimestamp.mk 3869835264 2147483648).to_system_time =
        .ok (3869835264 - 2208988800, 2147483648 * 1000000000 / 4294967296)) :=
  ⟨by decide, (c5_to_system_time_error_iff ⟨3869835264, 2147483648⟩ (by decide)).2⟩

/-- Claim C8 (code evaluation): the background sampler's sleep is
`rng.random_range(0..=2)` seconds regardless of any configuration: every
possible draw sleeps at most 2 seconds, and the draw 0 sleeps 0 seconds,
which lies outside a configured interval `[5, 10]`. -/
theorem c8_sleep_interval_hardcoded :
    (∀ draw : Fin 3, startSyncThreadSleepSecs draw ≤ 2) ∧
    startSyncThreadSleepSecs 0 = 0 ∧
    ¬ (5 ≤ startSyncThreadSleepSecs 0 ∧ startSyncThreadSleepSecs 0 ≤ 10) := by
  decide

/-- Claim C10: for every `NtpTimestamp` with a 32-bit fraction field, the
nanoseconds `fraction · 10⁹ / 2³²` computed by `to_system_time` are below
`10⁹`, so the fraction-overflow branch is unreachable and the only decode
failure is the earlier-than-Unix-epoch check. -/
theorem c10_fraction_nanos_lt_billion (ts : NtpTimestamp)
    (hf : ts.fraction < 2 ^ 32) :
    ts.fraction * 1000000000 / 4294967296 < 1000000000 ∧
    ∀ e, ts.to_system_time = .error e → e = .timestampDecode := by
  have h1 : ts.fraction * 1000000000 / 4294967296 < 1000000000 := by
    apply Nat.div_lt_of_lt_mul
    calc ts.fraction * 1000000000 < 2 ^ 32 * 1000000000 := by
          exact Nat.mul_lt_mul_of_lt_of_le hf (le_refl _) (by norm_num)
      _ = 1000000000 * 4294967296 := by norm_num
  refine ⟨h1, ?_⟩
  intro e he
  unfold NtpTimestamp.to_system_time at he
  split at he
  · simp_all
  · simp only [] at he
    split at he
    · omega
    · simp_all

/-- Witness for C10 at the S1 timestamp. -/
theorem c10_witness :
    (2147483648 < 2 ^ 32) ∧
    (2147483648 * 1000000000 / 4294967296 < 1000000000 ∧
      ∀ e, (NtpTimestamp.mk 3869835264 2147483648).to_system_time = .error e →
        e = .timestampDecode) :=
  ⟨by decide, c10_fraction_nanos_lt_billion ⟨3869835264, 2147483648⟩ (by decide)⟩

set_option maxRecDepth 8000

/-- Counterexample to claim C3 as stated: encoding the timestamp 0 s, 1 ns
(NTP seconds `2_208_988_800`, within 32 bits) gives fraction 4, decoding
recovers 0 ns — the seconds are exact, but the recovered nanoseconds
differ from the original by 1 ns, which exceeds the value of one fraction
unit (`10⁹/2³² ≈ 0.233` ns): `(1 − 0) · 2³² > 10⁹`. -/
theorem c3_roundtrip_counterexample :
    NtpTimestamp.from_chrono_utc 0 1 = .ok ⟨2208988800, 4⟩ ∧
    (NtpTimestamp.mk 2208988800 4).to_system_time = .ok (0, 0) ∧
    ¬ ((1 - 0) * 4294967296 ≤ 1000000000) := by
  exact ⟨rfl, rfl, by decide⟩

/-- Claim C3 (amended): for every UTC timestamp at or after the Unix epoch
whose NTP seconds fit in 32 bits, decoding the encoded timestamp recovers
the seconds exactly and the nanoseconds to within 1 nanosecond below the
original (`n − 1 ≤ n' ≤ n`), using `fraction = ⌊n · 2³² / 10⁹⌋`. -/
theorem c3_roundtrip_within_one_nanosecond (s n : Nat) (hn : n < 1000000000)
    (hs : s + 2208988800 < 2 ^ 32) :
    NtpTimestamp.from_chrono_utc s n =
      .ok ⟨s + 2208988800, n * 4294967296 / 1000000000⟩ ∧
    (NtpTimestamp.mk (s + 2208988800) (n * 4294967296 / 1000000000)).to_system_time =
      .ok (s, n * 4294967296 / 1000000000 * 1000000000 / 4294967296) ∧
    n * 4294967296 / 1000000000 * 1000000000 / 4294967296 ≤ n ∧
    n - n * 4294967296 / 1000000000 * 1000000000 / 4294967296 ≤ 1 := by
  refine ⟨?_, ?_, ?_, ?_⟩
  · simp only [NtpTimestamp.from_chrono_utc, NTP_UNIX_EPOCH_DIFF]
    rw [if_neg (by omega), if_neg (by omega), if_neg (by omega)]
  · simp only [NtpTimestamp.to_system_time, NTP_UNIX_EPOCH_DIFF]
    rw [if_neg (by omega), if_neg (by omega)]
    simp only [Except.ok.injEq, Prod.mk.injEq]
    exact ⟨by omega, trivial⟩
  · omega
  · omega

/-- Witness for (amended) C3 at 0 s, 1 ns. -/
theorem c3_roundtrip_witness :
    (1 < 1000000000 ∧ 0 + 2208988800 < 2 ^ 32) ∧
    (NtpTimestamp.from_chrono_utc 0 1 =
      .ok ⟨0 + 2208988800, 1 * 4294967296 / 1000000000⟩ ∧
    (NtpTimestamp.mk (0 + 2208988800) (1 * 4294967296 / 1000000000)).to_system_time =
      .ok (0, 1 * 4294967296 / 1000000000 * 1000000000 / 4294967296) ∧
    1 * 4294967296 / 1000000000 * 1000000000 / 4294967296 ≤ 1 ∧
    1 - 1 * 4294967296 / 1000000000 * 1000000000 / 4294967296 ≤ 1) :=
  ⟨by decide, c3_roundtrip_within_one_nanosecond 0 1 (by decide) (by decide)⟩

/-- Claim C9 (amended): when processing a `Success(offset, delay)` sample,
any error leaves the program clock unchanged, and any error other than the
smoothed-offset conversion error (i.e. any error raised before the Kalman
update: microsecond extraction or micros-to-secs conversion of either
duration) also leaves the Kalman filter unchanged. (A smoothed-offset
conversion error occurs after `kalman_filter.update` has already run, so
the filter may retain that sample.) -/
theorem c9_error_isolation_amended (expf : ℚ → ℚ) (kf : KalmanFilter)
    (clock : ProgramClock) (dt : ℚ) (m_now : Int) (delay_to_r_factor : ℚ)
    (measured_offset measured_delay : Int) (e : AppError)
    (he : (handleSuccess expf kf clock dt m_now delay_to_r_factor
      measured_offset measured_delay).1 = .error e) :
    (handleSuccess expf kf clock dt m_now delay_to_r_factor
      measured_offset measured_delay).2.2 = clock ∧
    (e ≠ .smoothedConvert →
      (handleSuccess expf kf clock dt m_now delay_to_r_factor
        measured_offset measured_delay).2.1 = kf) := by
  unfold handleSuccess at he ⊢
  rcases h1 : num_microseconds measured_offset with _ | offMicros
  · exact ⟨rfl, fun _ => rfl⟩
  rw [h1] at he
  simp only [] at he ⊢
  rcases h2 : micros_to_secs .offsetTooLarge offMicros with e2 | offSecs
  · exact ⟨rfl, fun _ => rfl⟩
  rw [h2] at he
  simp only [] at he ⊢
  rcases h3 : num_microseconds measured_delay with _ | delMicros
  · exact ⟨rfl, fun _ => rfl⟩
  rw [h3] at he
  simp only [] at he ⊢
  rcases h4 : micros_to_secs .delayTooLarge delMicros with e4 | delSecs
  · exact ⟨rfl, fun _ => rfl⟩
  rw [h4] at he
  simp only [] at he ⊢
  rcases h5 : secs_to_duration
      ((kf.update expf dt offSecs (delSecs * delay_to_r_factor)).2) with e5 | sm
  · rw [h5] at he
    have he5 : e5 = e := by simpa using he
    have hsc : e5 = .smoothedConvert := secs_to_duration_error _ _ h5
    subst he5
    exact ⟨rfl, fun hne => absurd hsc hne⟩
  · rw [h5] at he
    simp at he

/-- Witness for (amended) C9: an offset of `10¹⁹` ns (`10¹⁶` µs, beyond
`2⁵³`) is rejected by `micros_to_secs` and both states are returned
unchanged. -/
theorem c9_error_isolation_witness :
    (handleSuccess (fun _ => 1) (KalmanFilter.new 0 10 1 0 0)
      (ProgramClock.new 0) 0 0 1 10000000000000000000 0).2.2 =
        ProgramClock.new 0 ∧
    (AppError.offsetTooLarge ≠ .smoothedConvert →
      (handleSuccess (fun _ => 1) (KalmanFilter.new 0 10 1 0 0)
        (ProgramClock.new 0) 0 0 1 10000000000000000000 0).2.1 =
          KalmanFilter.new 0 10 1 0 0) :=
  c9_error_isolation_amended (fun _ => 1) (KalmanFilter.new 0 10 1 0 0)
    (ProgramClock.new 0) 0 0 1 10000000000000000000 0 .offsetTooLarge rfl

/-- Counterexample to claim C9 as stated: with filter state
`P = diag(10, 10)`, `x = 0`, a sample whose offset is `2⁵³` µs (accepted)
and whose delay is `−9.999999` s makes `S = 10⁻⁶`, so the Kalman gain
blows the smoothed offset up to `≈ 9·10¹⁶` s, which fails the
seconds-to-duration conversion — the call returns an error, the clock is
unchanged, but the filter state has already changed: the error is not
isolated from the filter. -/
theorem c9_error_mutates_filter_counterexample :
    (handleSuccess (fun _ => 1) (KalmanFilter.new 0 10 (1/2) (1/20) (1/20))
      (ProgramClock.new 0) 0 0 1 9007199254740992000 (-9999999000)).1 =
        .error .smoothedConvert ∧
    (handleSuccess (fun _ => 1) (KalmanFilter.new 0 10 (1/2) (1/20) (1/20))
      (ProgramClock.new 0) 0 0 1 9007199254740992000 (-9999999000)).2.1 ≠
        KalmanFilter.new 0 10 (1/2) (1/20) (1/20) ∧
    (handleSuccess (fun _ => 1) (KalmanFilter.new 0 10 (1/2) (1/20) (1/20))
      (ProgramClock.new 0) 0 0 1 9007199254740992000 (-9999999000)).2.2 =
        ProgramClock.new 0 := by
  have h1 : num_microseconds 9007199254740992000 = some 9007199254740992 := by
    decide
  have h2 : num_microseconds (-9999999000) = some (-9999999) := by decide
  have h3 : micros_to_secs .offsetTooLarge 9007199254740992 =
      .ok (9007199254740992 / 1000000 : ℚ) := by
    norm_num [micros_to_secs, MAX_SAFE_INTEGER_IN_F64]
  have h4 : micros_to_secs .delayTooLarge (-9999999) =
      .ok (-(9999999 / 1000000 : ℚ)) := by
    norm_num [micros_to_secs, MAX_SAFE_INTEGER_IN_F64]
  have hupd : ((KalmanFilter.new 0 10 (1/2) (1/20) (1/20)).update (fun _ => 1) 0
      (9007199254740992 / 1000000 : ℚ) (-(9999999 / 1000000 : ℚ) * 1)).2 =
      90071992547409920 := by
    norm_num [KalmanFilter.update, KalmanFilter.predict, KalmanFilter.correct,
      mulAdd, KalmanFilter.new]
  have hx : ((KalmanFilter.new 0 10 (1/2) (1/20) (1/20)).update (fun _ => 1) 0
      (9007199254740992 / 1000000 : ℚ) (-(9999999 / 1000000 : ℚ) * 1)).1.x_hat0 =
      90071992547409920 := by
    norm_num [KalmanFilter.update, KalmanFilter.predict, KalmanFilter.correct,
      mulAdd, KalmanFilter.new]
  have h6 : secs_to_duration (90071992547409920 : ℚ) =
      .error .smoothedConvert := by
    norm_num [secs_to_duration, CHRONO_MAX_NANOS]
  unfold handleSuccess
  rw [h1]
  simp only []
  rw [h3]
  simp only []
  rw [h2]
  simp only []
  rw [h4]
  simp only []
  rw [hupd, h6]
  refine ⟨rfl, ?_, rfl⟩
  intro heq
  rw [heq] at hx
  simp only [KalmanFilter.new] at hx
  norm_num at hx

end Khronos
